import Mathlib

/-!
Shallow embedding of `crates/otlp2parquet/src/deploy/mod.rs`: the deploy
dispatcher `DeployCommand::run` and, modelled from the spec, the two
platform generators (`cloudflare::run`, `aws::run`) and the name-derivation
helper (`names::derive`) that the dispatcher routes to.

The Rust `anyhow::Result<()>` becomes `Except AnyhowError Unit`; the one
side effect (writing the generated configuration document) becomes explicit
state passing over a small filesystem model `FS`.
-/

namespace Otlp2Parquet

/-- The two supported target platforms, one per `DeployCommand` variant. -/
inductive Platform where
  | cloudflare
  | aws
deriving DecidableEq, Repr

/-- Modelled from the spec: the error the name deriver fails with when a
base name cannot be made conformant to the target platform's naming rules. -/
structure NameError where
  message : String
deriving DecidableEq, Repr

/-- Modelled from the spec: the error taxonomy of section 7 — ArgumentError,
NameError, GenerationError, IoError. -/
inductive DeployError where
  | argumentError (message : String)
  | nameError (e : NameError)
  | generationError (message : String)
  | ioError (message : String)
deriving DecidableEq, Repr

/-- The four error categories of the spec's taxonomy, as bare tags. -/
inductive ErrorCategory where
  | argument
  | name
  | generation
  | ioWrite
deriving DecidableEq, Repr

/-- The category of a `DeployError`. -/
def DeployError.category : DeployError → ErrorCategory
  | DeployError.argumentError _ => ErrorCategory.argument
  | DeployError.nameError _ => ErrorCategory.name
  | DeployError.generationError _ => ErrorCategory.generation
  | DeployError.ioError _ => ErrorCategory.ioWrite

/-- The human-readable message of a `DeployError`. -/
def DeployError.describe : DeployError → String
  | DeployError.argumentError m => "argument error: " ++ m
  | DeployError.nameError e => "name error: " ++ e.message
  | DeployError.generationError m => "generation error: " ++ m
  | DeployError.ioError m => "output error: " ++ m

/-- `anyhow::Error`: a single type-erased error type. Statically it exposes
only a rendered message; the underlying error survives as `source`, reachable
only by dynamic inspection (anyhow's downcast). -/
structure AnyhowError where
  message : String
  source : DeployError
deriving DecidableEq, Repr

/-- Erasure of a concrete `DeployError` into `anyhow::Error`
(Rust's `?` conversion at the generator boundary). -/
def toAnyhow (e : DeployError) : AnyhowError :=
  { message := e.describe, source := e }

/-- A character valid in a platform-conformant resource name:
lowercase ASCII letter, ASCII digit, or hyphen. -/
def validNameChar (c : Char) : Bool :=
  (decide (97 ≤ c.toNat) && decide (c.toNat ≤ 122)) ||
  (decide (48 ≤ c.toNat) && decide (c.toNat ≤ 57)) ||
  c == '-'

/-- Modelled from the spec: normalization of a base identifier — lowercase
each character and drop every character that is not valid in a resource
name. -/
def normalizeChars (s : String) : List Char :=
  s.data.filterMap fun c =>
    let lc := c.toLower
    if validNameChar lc then some lc else none

/-- Modelled from the spec: each platform's resource-name length limit. -/
def maxNameLen : Platform → Nat
  | Platform.cloudflare => 63
  | Platform.aws => 63

/-- Modelled from the spec (section 4.4, sub-module `names` is not in the
repository's shown files): the pure name deriver
`derive(base, platform) -> Result<Name, NameError>` — normalize the base,
truncate to the platform's length limit, and fail when nothing conformant
remains. -/
def names.derive (base : String) (p : Platform) : Except NameError String :=
  if ((normalizeChars base).take (maxNameLen p)).isEmpty then
    Except.error { message := "cannot derive a platform-conformant name from " ++ base }
  else
    Except.ok (String.mk ((normalizeChars base).take (maxNameLen p)))

/-- A derived name conformant to a platform's constraints: nonempty, within
the length limit, and over the valid character set. -/
def conformantName (p : Platform) (s : String) : Bool :=
  !s.data.isEmpty && s.data.length ≤ maxNameLen p && s.data.all validNameChar

/-- Ambient process state an impure implementation could read or mutate:
process-wide globals and a randomness seed. -/
structure ProcessState where
  globals : List (String × String)
  randomSeed : Nat
deriving DecidableEq, Repr

/-- Modelled from the spec: the name deriver given access to the ambient
process state — it neither reads nor mutates it (section 4.4: referentially
transparent, no hidden global state, no randomness). -/
def names.deriveSt (st : ProcessState) (base : String) (p : Platform) :
    Except NameError String × ProcessState :=
  (names.derive base p, st)

/-- Modelled from the spec: the Cloudflare argument bundle (project name and
storage-bucket name; a `none` field is a missing required argument). -/
structure CloudflareArgs where
  projectName : Option String
  bucketName : Option String
deriving DecidableEq, Repr

/-- Modelled from the spec: the AWS argument bundle (stack name; a `none`
field is a missing required argument). -/
structure AwsArgs where
  stackName : Option String
deriving DecidableEq, Repr

/-- A generated configuration document: its destination path and its
rendered content. -/
structure Document where
  path : String
  content : String
deriving DecidableEq, Repr

/-- The output destination: a list of (path, content) files, most recent
write first. -/
abbrev FS := List (String × String)

/-- Write one complete document at a path (atomic: the whole content or
nothing). -/
def writeFile (fs : FS) (path content : String) : FS :=
  (path, content) :: fs

/-- The bytes currently stored at a path. -/
def lookupFile (fs : FS) (path : String) : Option String :=
  (fs.find? fun entry => entry.1 == path).map fun entry => entry.2

/-- A required argument field: present, or an `ArgumentError`. -/
def requireArg (field : Option String) (what : String) : Except DeployError String :=
  match field with
  | some v => Except.ok v
  | none => Except.error (DeployError.argumentError ("missing required argument: " ++ what))

/-- Name derivation lifted into the generator's error type. -/
def deriveOr (base : String) (p : Platform) : Except DeployError String :=
  match names.derive base p with
  | Except.ok n => Except.ok n
  | Except.error e => Except.error (DeployError.nameError e)

/-- The conventional output file of each platform's generator. -/
def genOutputPath : Platform → String
  | Platform.cloudflare => "wrangler.toml"
  | Platform.aws => "template.yaml"

/-- Render the Cloudflare Workers manifest (wrangler.toml). -/
def renderWrangler (workerName bucketName : String) : String :=
  "name = \"" ++ workerName ++ "\"\n" ++
  "main = \"src/index.ts\"\n" ++
  "[[r2_buckets]]\n" ++
  "binding = \"OTLP_BUCKET\"\n" ++
  "bucket_name = \"" ++ bucketName ++ "\"\n"

/-- Render the AWS SAM deployment template (template.yaml). -/
def renderTemplate (functionName bucketName : String) : String :=
  "AWSTemplateFormatVersion: 2010-09-09\n" ++
  "Transform: AWS::Serverless-2016-10-31\n" ++
  "Resources:\n" ++
  "  IngestFunction:\n" ++
  "    Type: AWS::Serverless::Function\n" ++
  "    Properties:\n" ++
  "      FunctionName: " ++ functionName ++ "\n" ++
  "  DataBucket:\n" ++
  "    Type: AWS::S3::Bucket\n" ++
  "    Properties:\n" ++
  "      BucketName: " ++ bucketName ++ "\n"

/-- Modelled from the spec (section 4.2, `cloudflare::run`'s body is not in
the repository's shown files): check required arguments, derive
platform-conformant names, render the manifest. -/
def cloudflare.generate (args : CloudflareArgs) : Except DeployError Document :=
  match requireArg args.projectName "project name" with
  | Except.error e => Except.error e
  | Except.ok project =>
    match requireArg args.bucketName "bucket name" with
    | Except.error e => Except.error e
    | Except.ok bucket =>
      match deriveOr project Platform.cloudflare with
      | Except.error e => Except.error e
      | Except.ok workerName =>
        match deriveOr bucket Platform.cloudflare with
        | Except.error e => Except.error e
        | Except.ok derivedBucket =>
          Except.ok { path := genOutputPath Platform.cloudflare,
                      content := renderWrangler workerName derivedBucket }

/-- Modelled from the spec (section 4.3, `aws::run`'s body is not in the
repository's shown files): check required arguments, derive names for the
function and storage resources, render the template. -/
def aws.generate (args : AwsArgs) : Except DeployError Document :=
  match requireArg args.stackName "stack name" with
  | Except.error e => Except.error e
  | Except.ok stack =>
    match deriveOr (stack ++ "-ingest") Platform.aws with
    | Except.error e => Except.error e
    | Except.ok functionName =>
      match deriveOr (stack ++ "-data") Platform.aws with
      | Except.error e => Except.error e
      | Except.ok derivedBucket =>
        Except.ok { path := genOutputPath Platform.aws,
                    content := renderTemplate functionName derivedBucket }

/-- Run a generation outcome against the output destination: on success the
one complete document is written; on failure nothing is written and the
error is erased into `anyhow::Error`. -/
def runGenerated (g : Except DeployError Document) (fs : FS) :
    Except AnyhowError Unit × FS :=
  match g with
  | Except.ok doc => (Except.ok (), writeFile fs doc.path doc.content)
  | Except.error e => (Except.error (toAnyhow e), fs)

/-- Modelled from the spec: `cloudflare::run(args) -> anyhow::Result<()>`. -/
def cloudflare.run (args : CloudflareArgs) (fs : FS) : Except AnyhowError Unit × FS :=
  runGenerated (cloudflare.generate args) fs

/-- Modelled from the spec: `aws::run(args) -> anyhow::Result<()>`. -/
def aws.run (args : AwsArgs) (fs : FS) : Except AnyhowError Unit × FS :=
  runGenerated (aws.generate args) fs

/-- `enum DeployCommand` from `deploy/mod.rs`: `Cloudflare(CloudflareArgs)`
(CLI subcommand `cloudflare`, alias `cf`) and `Aws(AwsArgs)`. -/
inductive DeployCommand where
  | Cloudflare (args : CloudflareArgs)
  | Aws (args : AwsArgs)
deriving DecidableEq, Repr

/-- `DeployCommand::run` from `deploy/mod.rs`: match on the variant and
invoke the corresponding generator with its argument bundle. -/
def DeployCommand.run : DeployCommand → FS → Except AnyhowError Unit × FS
  | DeployCommand.Cloudflare args => cloudflare.run args
  | DeployCommand.Aws args => aws.run args

/-- The platform a command dispatches to. -/
def dispatchTarget : DeployCommand → Platform
  | DeployCommand.Cloudflare _ => Platform.cloudflare
  | DeployCommand.Aws _ => Platform.aws

/-- The generation outcome of the generator a command dispatches to. -/
def DeployCommand.generated : DeployCommand → Except DeployError Document
  | DeployCommand.Cloudflare args => cloudflare.generate args
  | DeployCommand.Aws args => aws.generate args

/-- Whether a command's argument bundle is missing a required field. -/
def missingRequiredArg : DeployCommand → Bool
  | DeployCommand.Cloudflare args => args.projectName.isNone || args.bucketName.isNone
  | DeployCommand.Aws args => args.stackName.isNone

/-- Whether the active variant is `Cloudflare`. -/
def isCloudflareCmd : DeployCommand → Bool
  | DeployCommand.Cloudflare _ => true
  | DeployCommand.Aws _ => false

/-- Whether the active variant is `Aws`. -/
def isAwsCmd : DeployCommand → Bool
  | DeployCommand.Cloudflare _ => false
  | DeployCommand.Aws _ => true

/-- Modelled from the source's clap derive attributes: which platform a CLI
subcommand name selects (`cloudflare` with alias `cf`; `aws`). -/
def parsePlatform (s : String) : Option Platform :=
  if s == "cloudflare" || s == "cf" then some Platform.cloudflare
  else if s == "aws" then some Platform.aws
  else none

/-! ### Helper lemmas shared by the claim theorems -/

theorem lookupFile_writeFile_self (fs : FS) (p c : String) :
    lookupFile (writeFile fs p c) p = some c := by
  simp [lookupFile, writeFile, List.find?]

theorem lookupFile_writeFile_ne (fs : FS) (p c q : String) (h : q ≠ p) :
    lookupFile (writeFile fs p c) q = lookupFile fs q := by
  have hb : (p == q) = false := by
    simp [beq_eq_false_iff_ne]
    exact fun he => h he.symm
  simp [lookupFile, writeFile, List.find?, hb]

theorem cloudflare_generate_path (args : CloudflareArgs) (doc : Document)
    (h : cloudflare.generate args = Except.ok doc) : doc.path = "wrangler.toml" := by
  unfold cloudflare.generate at h
  repeat' split at h
  all_goals first
    | (cases h; rfl)
    | simp_all [genOutputPath]

theorem aws_generate_path (args : AwsArgs) (doc : Document)
    (h : aws.generate args = Except.ok doc) : doc.path = "template.yaml" := by
  unfold aws.generate at h
  repeat' split at h
  all_goals first
    | (cases h; rfl)
    | simp_all [genOutputPath]

theorem generated_path (cmd : DeployCommand) (doc : Document)
    (h : cmd.generated = Except.ok doc) :
    doc.path = genOutputPath (dispatchTarget cmd) := by
  cases cmd with
  | Cloudflare args => exact cloudflare_generate_path args doc h
  | Aws args => exact aws_generate_path args doc h

theorem normalizeChars_valid (s : String) (c : Char) (h : c ∈ normalizeChars s) :
    validNameChar c = true := by
  unfold normalizeChars at h
  rcases List.mem_filterMap.mp h with ⟨a, _, hfa⟩
  dsimp only at hfa
  split at hfa
  · cases hfa
    assumption
  · cases hfa

theorem missingRequiredArg_generated (cmd : DeployCommand)
    (h : missingRequiredArg cmd = true) :
    ∃ m, cmd.generated = Except.error (DeployError.argumentError m) := by
  cases cmd with
  | Cloudflare args =>
    rcases args with ⟨p, b⟩
    cases p <;> cases b <;>
      simp_all [missingRequiredArg, DeployCommand.generated, cloudflare.generate, requireArg]
  | Aws args =>
    rcases args with ⟨s⟩
    cases s <;>
      simp_all [missingRequiredArg, DeployCommand.generated, aws.generate, requireArg]

theorem run_eq_runGenerated (cmd : DeployCommand) (fs : FS) :
    cmd.run fs = runGenerated cmd.generated fs := by
  cases cmd <;> rfl

/-! ### Claim theorems -/

/-- C1: for every `DeployCommand` value, `run` invokes the generator
matching the active variant with that variant's argument bundle:
`run (Cloudflare args)` equals `cloudflare.run args` and `run (Aws args)`
equals `aws.run args`. -/
theorem run_invokes_matching_generator (cargs : CloudflareArgs) (aargs : AwsArgs) (fs : FS) :
    (DeployCommand.Cloudflare cargs).run fs = cloudflare.run cargs fs ∧
    (DeployCommand.Aws aargs).run fs = aws.run aargs fs :=
  ⟨rfl, rfl⟩

/-- C2: `run` routes every variant to exactly the matching generator (the
match is exhaustive over the variant set), and the selected generator is the
only one whose side effects are observed — every destination other than the
selected generator's output path is left untouched. -/
theorem run_dispatch_exclusive (cmd : DeployCommand) (fs : FS) (q : String)
    (h : q ≠ genOutputPath (dispatchTarget cmd)) :
    (match cmd with
      | DeployCommand.Cloudflare a => cmd.run fs = cloudflare.run a fs
      | DeployCommand.Aws a => cmd.run fs = aws.run a fs) ∧
    lookupFile (cmd.run fs).2 q = lookupFile fs q := by
  constructor
  · cases cmd <;> rfl
  · rw [run_eq_runGenerated]
    cases hg : cmd.generated with
    | error e => rfl
    | ok doc =>
      have hp : doc.path = genOutputPath (dispatchTarget cmd) := generated_path cmd doc hg
      show lookupFile (writeFile fs doc.path doc.content) q = lookupFile fs q
      exact lookupFile_writeFile_ne fs doc.path doc.content q (by rw [hp]; exact h)

/-- C2 witness: dispatching `create cloudflare` leaves the AWS generator's
destination (`template.yaml`) untouched. -/
theorem run_dispatch_exclusive_witness :
    lookupFile ((DeployCommand.Cloudflare
        { projectName := some "otlp-demo", bucketName := some "otlp-demo-data" }).run
        [("template.yaml", "keep")]).2 "template.yaml" = some "keep" :=
  Eq.trans
    ((run_dispatch_exclusive
      (DeployCommand.Cloudflare
        { projectName := some "otlp-demo", bucketName := some "otlp-demo-data" })
      [("template.yaml", "keep")] "template.yaml" (by decide)).2)
    rfl

/-- C3: `run` introduces no errors of its own and performs no recovery —
when the selected generator succeeds `run` returns success, and when it
fails with `e` `run` returns exactly that error (erased unchanged to
`anyhow::Error`), none swallowed. -/
theorem run_propagates_generator_result (cmd : DeployCommand) (fs : FS) :
    (∀ doc : Document, cmd.generated = Except.ok doc → (cmd.run fs).1 = Except.ok ()) ∧
    (∀ e : DeployError, cmd.generated = Except.error e →
      (cmd.run fs).1 = Except.error (toAnyhow e)) := by
  constructor
  · intro doc h
    rw [run_eq_runGenerated, h]
    rfl
  · intro e h
    rw [run_eq_runGenerated, h]
    rfl

/-- C4: generation is all-or-nothing — starting from an empty destination,
either the invocation succeeds and exactly the one complete document is
written, or it fails and nothing is written; a missing required argument
yields an ArgumentError with no output written. -/
theorem generation_all_or_nothing (cmd : DeployCommand) :
    ((∃ doc : Document, cmd.generated = Except.ok doc ∧
        cmd.run [] = (Except.ok (), [(doc.path, doc.content)])) ∨
     (∃ e : DeployError, cmd.generated = Except.error e ∧
        cmd.run [] = (Except.error (toAnyhow e), []))) ∧
    (missingRequiredArg cmd = true →
      ∃ e : AnyhowError, cmd.run [] = (Except.error e, []) ∧
        e.source.category = ErrorCategory.argument) := by
  constructor
  · cases hg : cmd.generated with
    | ok doc =>
      exact Or.inl ⟨doc, rfl, by rw [run_eq_runGenerated, hg]; rfl⟩
    | error e =>
      exact Or.inr ⟨e, rfl, by rw [run_eq_runGenerated, hg]; rfl⟩
  · intro h
    rcases missingRequiredArg_generated cmd h with ⟨m, hg⟩
    exact ⟨toAnyhow (DeployError.argumentError m),
      by rw [run_eq_runGenerated, hg]; rfl, rfl⟩

/-- C5: generation is deterministic — two invocations of `run` with
identical arguments (the same pure name deriver underneath) return the same
result, and on success the bytes written at the generator's output path are
identical, whatever the prior state of the destination. -/
theorem generation_deterministic (cmd : DeployCommand) (fs1 fs2 : FS)
    (h : (cmd.run fs1).1 = Except.ok ()) :
    (cmd.run fs1).1 = (cmd.run fs2).1 ∧
    lookupFile (cmd.run fs1).2 (genOutputPath (dispatchTarget cmd)) =
      lookupFile (cmd.run fs2).2 (genOutputPath (dispatchTarget cmd)) := by
  cases hg : cmd.generated with
  | error e =>
    rw [run_eq_runGenerated, hg] at h
    cases h
  | ok doc =>
    have hp : doc.path = genOutputPath (dispatchTarget cmd) := generated_path cmd doc hg
    constructor
    · rw [run_eq_runGenerated cmd fs1, run_eq_runGenerated cmd fs2, hg]
      rfl
    · rw [run_eq_runGenerated cmd fs1, run_eq_runGenerated cmd fs2, hg]
      show lookupFile (writeFile fs1 doc.path doc.content) _ =
        lookupFile (writeFile fs2 doc.path doc.content) _
      rw [← hp, lookupFile_writeFile_self, lookupFile_writeFile_self]

/-- C5 witness: running `create aws` for stack `otlp-prod` against two
different prior destination states returns the same result. -/
theorem generation_deterministic_witness :
    ((DeployCommand.Aws { stackName := some "otlp-prod" }).run []).1 =
      ((DeployCommand.Aws { stackName := some "otlp-prod" }).run
        [("template.yaml", "old")]).1 :=
  (generation_deterministic (DeployCommand.Aws { stackName := some "otlp-prod" })
    [] [("template.yaml", "old")] rfl).1

/-- C6: `DeployCommand` is a closed sum with exactly the variants
`Cloudflare` and `Aws`, each carrying its platform-specific argument bundle;
every value has exactly one active variant — the variants are exhaustive and
mutually exclusive. -/
theorem deployCommand_closed_sum (cmd : DeployCommand) :
    (isCloudflareCmd cmd = true ∧ isAwsCmd cmd = false ∧
      ∃ a, cmd = DeployCommand.Cloudflare a) ∨
    (isAwsCmd cmd = true ∧ isCloudflareCmd cmd = false ∧
      ∃ a, cmd = DeployCommand.Aws a) := by
  cases cmd with
  | Cloudflare a => exact Or.inl ⟨rfl, rfl, a, rfl⟩
  | Aws a => exact Or.inr ⟨rfl, rfl, a, rfl⟩

/-- C7: the name deriver is pure and referentially transparent — run against
any two ambient process states it returns the same derived name, and it
leaves the process state untouched (no hidden global state, no randomness). -/
theorem names_derive_pure (st1 st2 : ProcessState) (base : String) (p : Platform) :
    (names.deriveSt st1 base p).1 = (names.deriveSt st2 base p).1 ∧
    (names.deriveSt st1 base p).2 = st1 :=
  ⟨rfl, rfl⟩

/-- C8: every base name the deriver accepts yields a name conformant to the
platform's length and character-set constraints, and a base name that is
empty (or all-invalid) after normalization yields a `NameError`, never a
malformed derived name. -/
theorem derive_conformant_or_error (base : String) (p : Platform) :
    (∀ n : String, names.derive base p = Except.ok n → conformantName p n = true) ∧
    ((normalizeChars base).isEmpty = true →
      ∃ e : NameError, names.derive base p = Except.error e) := by
  constructor
  · intro n h
    unfold names.derive at h
    split at h
    · cases h
    · rename_i hne
      cases h
      simp only [conformantName, Bool.and_eq_true, Bool.not_eq_true',
        decide_eq_true_eq, List.all_eq_true]
      refine ⟨⟨?_, ?_⟩, ?_⟩
      · simpa using hne
      · exact List.length_take_le _ _
      · intro c hc
        exact normalizeChars_valid base c (List.take_subset _ _ hc)
  · intro h
    have hnil : normalizeChars base = [] := by simpa using h
    unfold names.derive
    rw [hnil]
    simp [List.take_nil]

/-- C9: the CLI subcommand `create cloudflare` (alias `cf`) selects the
Cloudflare generator, whose output is the Workers manifest `wrangler.toml`,
and `create aws` selects the AWS generator, whose output is the deployment
template `template.yaml`. -/
theorem create_subcommands_select_generators :
    parsePlatform "cloudflare" = some Platform.cloudflare ∧
    parsePlatform "cf" = some Platform.cloudflare ∧
    parsePlatform "aws" = some Platform.aws ∧
    genOutputPath Platform.cloudflare = "wrangler.toml" ∧
    genOutputPath Platform.aws = "template.yaml" ∧
    (∀ (args : CloudflareArgs) (fs : FS),
      (DeployCommand.Cloudflare args).run fs = cloudflare.run args fs) ∧
    (∀ (args : AwsArgs) (fs : FS),
      (DeployCommand.Aws args).run fs = aws.run args fs) ∧
    (∀ (args : CloudflareArgs) (doc : Document),
      cloudflare.generate args = Except.ok doc → doc.path = "wrangler.toml") ∧
    (∀ (args : AwsArgs) (doc : Document),
      aws.generate args = Except.ok doc → doc.path = "template.yaml") := by
  refine ⟨rfl, rfl, rfl, rfl, rfl, fun _ _ => rfl, fun _ _ => rfl, ?_, ?_⟩
  · exact fun args doc h => cloudflare_generate_path args doc h
  · exact fun args doc h => aws_generate_path args doc h

/-- C10: every failure surfaces at the dispatcher boundary through the one
type-erased error type `AnyhowError`; errors of distinct categories
(ArgumentError, NameError, ...) are not separated by `run`'s static return
type and are told apart only by inspecting the erased value dynamically. -/
theorem run_single_erased_error_type :
    (∀ (cmd : DeployCommand) (fs : FS),
      (cmd.run fs).1 = Except.ok () ∨
      ∃ e : AnyhowError, (cmd.run fs).1 = Except.error e) ∧
    (∃ (c1 c2 : DeployCommand) (e1 e2 : AnyhowError),
      (c1.run []).1 = Except.error e1 ∧ (c2.run []).1 = Except.error e2 ∧
      e1.source.category = ErrorCategory.argument ∧
      e2.source.category = ErrorCategory.name) := by
  constructor
  · intro cmd fs
    cases h : (cmd.run fs).1 with
    | ok u => exact Or.inl rfl
    | error e => exact Or.inr ⟨e, rfl⟩
  · exact ⟨DeployCommand.Cloudflare { projectName := none, bucketName := some "data" },
      DeployCommand.Cloudflare { projectName := some "!!!", bucketName := some "data" },
      toAnyhow (DeployError.argumentError "missing required argument: project name"),
      toAnyhow (DeployError.nameError
        { message := "cannot derive a platform-conformant name from !!!" }),
      rfl, rfl, rfl, rfl⟩

end Otlp2Parquet
